import Mathlib

/-!
Verification of the TwinxPos sale-processing subsystem.

This file gives a shallow embedding of the sales controller
(src/sales_controller.py), the stock mutator of the product controller
(src/product_controller.py, `ProductController.update_stock`) and the
database-manager connection semantics (src/database.py,
`DatabaseManager.get_connection` / `execute_update`), and proves or refutes
the behavioural claims about them.

Modelling conventions:

* Monetary and quantity values are `Rat`.  The Python code computes with
  `decimal.Decimal` built from shortest-repr strings of the inputs, which is
  exact decimal arithmetic, so `Rat` is a faithful carrier.  The trailing
  `float(...)` casts that the code applies when packing result dictionaries
  are not modelled (they only change the machine representation of the
  already-computed decimal values).
* SQL tables become lists of typed rows holding the columns the controllers
  read or write.  `AUTOINCREMENT` ids become counters in the database state;
  an id allocated inside an open transaction is not durable, so the ids the
  code reads back via `cursor.lastrowid` are derived from the committed
  counter plus the rows already buffered in the transaction, and the
  counters advance only when the transaction commits.  Timestamp columns and
  free-text detail strings are omitted; the calendar day enters only through
  the `today` parameter used by invoice numbering.
* Schema constraints of database.py are enforced by the embedding wherever
  the controllers' statements can violate them: `general_ledger` has
  `entry_number TEXT UNIQUE NOT NULL` and an `account_id` foreign key into
  the `accounts` table (which the application never populates), and
  `audit_logs` has `user_id INTEGER NOT NULL` with a foreign key into
  `employees`, `CHECK(action_type IN (...))` and `CHECK(status IN (...))`.
  An INSERT that violates a constraint writes nothing and raises.  A SELECT
  that names a column its table does not have raises
  `sqlite3.OperationalError`; because two such queries drive the control
  flow, the full column lists of `products` and `product_variations` are
  transcribed below (`products_columns`, `product_variations_columns`).
* A `sqlite3` connection obtained from `DatabaseManager.get_connection`
  commits on normal exit of the `with` block and rolls back on an exception.
  The sale runs on one connection whose writes are buffered in a `Pending`
  record and applied to the committed state only at commit.
  `DatabaseManager.execute_update` (used by the `_log_audit_event` helpers
  of both controllers) opens a fresh connection that commits independently -
  but SQLite in its default rollback-journal mode admits a single writer, so
  such an INSERT issued while the sale connection holds the write lock fails
  with `database is locked` and is swallowed by the logger's `except`
  handler.  The `locked` flag of `log_audit` records whether the issuing
  call sits inside the sale's open write transaction.
* Python dictionary access `d['k']` on a possibly missing key is modelled by
  an `Option` match whose `none` branch raises (propagates an error), and
  `d.get('k', v)` by `Option` plus default.  Python truthiness of numbers,
  strings and `None` is modelled by the `py_truthy*` helpers below.
-/

attribute [local semireducible] Rat.add Rat.mul Rat.inv Rat.sub Rat.ofScientific

/-- Floor of a rational as an integer, computed by floor-division of the
numerator by the (positive) denominator. -/
def rat_floor_z (q : ℚ) : ℤ :=
  Int.fdiv q.num (q.den : ℤ)

/-- Nearest integer to a rational, ties to even: the rounding used by Python
`decimal.Decimal.quantize` under the default context (ROUND_HALF_EVEN) and by
the built-in `round`. -/
def round_half_even_int (q : ℚ) : ℤ :=
  let f : ℤ := rat_floor_z q
  let r : ℚ := q - (f : ℚ)
  if r < 1/2 then f
  else if 1/2 < r then f + 1
  else if f % 2 = 0 then f else f + 1

/-- Quantize a rational to two decimal places, ties to even: models
`Decimal.quantize(Decimal('0.01'))` and `round(x, 2)`. -/
def quantize2 (q : ℚ) : ℚ :=
  ((round_half_even_int (q * 100) : ℚ)) / 100

/-- Python truthiness of a possibly-absent integer (`None` and `0` are
falsy). -/
def py_truthy_nat (o : Option Nat) : Bool :=
  match o with
  | none => false
  | some n => n != 0

/-- Python `x or d` for a nullable number (`None` and `0` select the
fallback). -/
def py_or_num (o : Option ℚ) (d : ℚ) : ℚ :=
  match o with
  | none => d
  | some x => if x == 0 then d else x

/-- Python `x or d` for a nullable string (`None` and the empty string select
the fallback). -/
def py_or_str (o : Option String) (d : Option String) : Option String :=
  match o with
  | none => d
  | some x => if x == "" then d else some x

/-- Truncation toward zero of a rational, as Python `int(...)`. -/
def py_int_trunc (q : ℚ) : ℤ :=
  if 0 ≤ q then ⌊q⌋ else ⌈q⌉

/-- Decimal-string parser for the cases the settings table holds
(an optional sign, digits, optionally a dot and digits): models a successful
Python `float(...)` on such strings, `none` when the parse - and hence the
Python call - fails. -/
def parse_decimal (s : String) : Option ℚ :=
  match s.splitOn "." with
  | [a] => (a.toInt?).map (fun i => (i : ℚ))
  | [a, b] =>
    match a.toInt?, b.toNat? with
    | some i, some fr =>
      let sign : ℚ := if s.startsWith "-" then -1 else 1
      some ((i : ℚ) + sign * (fr : ℚ) / ((10 : ℚ) ^ b.length))
    | _, _ => none
  | _ => none

/-- Left-pad the decimal representation of a number with zeros to four
digits, as the Python format `{sequence:04d}` used for invoice numbers. -/
def pad4 (n : Nat) : String :=
  let s := toString n
  String.mk (List.replicate (4 - s.length) '0') ++ s

/-- Left-pad to six digits, as the format `{sale_id:06d}` used for ledger
entry numbers. -/
def pad6 (n : Nat) : String :=
  let s := toString n
  String.mk (List.replicate (6 - s.length) '0') ++ s

/-- One line of the cart passed to `process_sale`: a Python dict, so every
key may be absent (`none`). -/
structure CartItem where
  product_id : Option Nat := none
  product_variation_id : Option Nat := none
  quantity : Option ℚ := none
  unit_price : Option ℚ := none
  discount_percent : Option ℚ := none
  discount_amount : Option ℚ := none
  tax_percent : Option ℚ := none
  global_discount_percent : Option ℚ := none
deriving Repr, DecidableEq

/-- Per-line breakdown stored by `_calculate_totals` in `items_with_details`
(sales_controller.py lines 305-317). -/
structure ItemCalc where
  product_id : Nat
  product_variation_id : Option Nat
  quantity : ℚ
  unit_price : ℚ
  subtotal : ℚ
  discount_amount : ℚ
  discount_percent : ℚ
  tax_amount : ℚ
  tax_percent : ℚ
  total : ℚ
deriving Repr, DecidableEq

/-- Totals dictionary returned by `_calculate_totals`
(sales_controller.py lines 335-347). -/
structure Totals where
  subtotal : ℚ
  discount_amount : ℚ
  tax_amount : ℚ
  grand_total : ℚ
  item_count : Nat
  global_discount : ℚ
  items : List ItemCalc
deriving Repr, DecidableEq

/-- Errors of the sale pipeline; each constructor corresponds to one failure
message in sales_controller.py (the `noSuchColumn` and ledger-constraint
constructors stand for the sqlite3 exception texts surfaced through the
failure messages). -/
inductive SaleError where
  | missingField (field : String)
  | productNotFound
  | insufficientStock
  | calcKeyError
  | cashierNotFound
  | stockUpdateFailed
  | accountsNotConfigured
  | noSuchColumn (column : String)
  | ledgerUniqueViolation
  | ledgerFkViolation
deriving Repr, DecidableEq

deriving instance DecidableEq for Except

namespace SalesController

/-- Loop body of `_calculate_totals` (sales_controller.py lines 276-317):
returns the accumulated (subtotal, total_discount, total_tax) and the
per-line breakdown, or the key error the Python dict accesses
`item['quantity']` / `item['product_id']` raise when those keys are absent. -/
def calc_totals_loop : List CartItem → Except SaleError (ℚ × ℚ × ℚ × List ItemCalc)
  | [] => .ok (0, 0, 0, [])
  | item :: rest =>
    match item.quantity, item.product_id with
    | none, _ => .error .calcKeyError
    | _, none => .error .calcKeyError
    | some quantity, some pid =>
      let unit_price := item.unit_price.getD 0
      let item_subtotal := quantity * unit_price
      let item_discount_percent := item.discount_percent.getD 0
      let item_discount_amount0 := item.discount_amount.getD 0
      let item_discount_amount :=
        if item_discount_percent > 0 then
          item_subtotal * (item_discount_percent / 100)
        else item_discount_amount0
      let item_total_after_discount := item_subtotal - item_discount_amount
      let tax_percent := item.tax_percent.getD 0
      let item_tax := item_total_after_discount * (tax_percent / 100)
      let detail : ItemCalc :=
        { product_id := pid
          product_variation_id := item.product_variation_id
          quantity := quantity
          unit_price := unit_price
          subtotal := item_subtotal
          discount_amount := item_discount_amount
          discount_percent := item_discount_percent
          tax_amount := item_tax
          tax_percent := tax_percent
          total := item_total_after_discount + item_tax }
      match calc_totals_loop rest with
      | .error e => .error e
      | .ok (s, d, t, ds) =>
        .ok (item_subtotal + s, item_discount_amount + d, item_tax + t, detail :: ds)

/-- Embedding of `SalesController._calculate_totals`
(sales_controller.py lines 268-350): decimal arithmetic per line, an optional
cart-level discount read off the first line, and final quantization of the
four headline amounts to two decimal places (ties to even). -/
def calculate_totals (cart_items : List CartItem) : Except SaleError Totals :=
  match calc_totals_loop cart_items with
  | .error e => .error e
  | .ok (subtotal, discount0, total_tax, details) =>
    let global_discount :=
      match cart_items with
      | [] => 0
      | first :: _ =>
        if first.global_discount_percent.isSome then
          subtotal * ((first.global_discount_percent.getD 0) / 100)
        else 0
    let total_discount := discount0 + global_discount
    let grand_total := subtotal - total_discount + total_tax
    .ok
      { subtotal := quantize2 subtotal
        discount_amount := quantize2 total_discount
        tax_amount := quantize2 total_tax
        grand_total := quantize2 grand_total
        item_count := cart_items.length
        global_discount := global_discount
        items := details }

end SalesController

/-- Reference cart of the specification: one line, quantity 2, unit price
19.99, tax 15 percent, no discount. -/
def referenceCart : List CartItem :=
  [{ product_id := some 1, quantity := some 2, unit_price := some (1999/100),
     tax_percent := some 15 }]

/-- C7: on the reference cart (one line, quantity 2, unit price 19.99, tax 15
percent, no discount), `_calculate_totals` returns subtotal 39.98, tax amount
6.00 and grand total 45.98, the headline amounts being quantized to two
decimal places with ties-to-even (the Decimal default) over exact decimal
arithmetic. -/
theorem reference_cart_totals :
    SalesController.calculate_totals referenceCart =
      .ok { subtotal := 3998/100, discount_amount := 0, tax_amount := 6,
            grand_total := 4598/100, item_count := 1, global_discount := 0,
            items := [{ product_id := 1, product_variation_id := none,
                        quantity := 2, unit_price := 1999/100,
                        subtotal := 3998/100, discount_amount := 0,
                        discount_percent := 0, tax_amount := 5997/1000,
                        tax_percent := 15, total := 45977/1000 }] } := by
  decide

/-- Column names of the `products` table, transcribed from its CREATE TABLE
statement (database.py lines 108-222).  In particular there is no
`allow_negative_stock` column (the string of that name at database.py line
2732 is a `settings` row key, not a column). -/
def products_columns : List String :=
  ["id", "name", "slug", "type", "category", "subcategory", "brand",
   "description", "short_description", "image_path", "image_gallery",
   "is_active", "is_featured", "is_taxable", "manage_stock",
   "stock_quantity", "stock_status", "allow_backorders",
   "low_stock_threshold", "price", "cost_price", "wholesale_price",
   "suggested_retail_price", "tax_class", "tax_rate", "sku", "barcode",
   "barcode_type", "qr_code", "upc", "isbn", "mpn", "weight_kg",
   "length_cm", "width_cm", "height_cm", "volume_liters",
   "dimensions_unit", "manufacturer", "manufacturer_country",
   "country_of_origin", "material_composition", "product_code",
   "warranty_period_months", "warranty_type", "warranty_terms",
   "has_warranty", "support_email", "support_phone", "commission_rate",
   "margin_percentage", "min_order_quantity", "max_order_quantity",
   "sale_price", "sale_start_date", "sale_end_date", "tags",
   "shelf_life_days", "expiry_alert_days", "batch_tracking_required",
   "serial_tracking_required", "supplier_id", "supplier_sku",
   "lead_time_days", "reorder_point", "reorder_quantity",
   "shipping_class", "shipping_weight", "requires_shipping",
   "is_virtual", "is_downloadable", "meta_title", "meta_description",
   "meta_keywords", "canonical_url", "created_by", "updated_by",
   "created_at", "updated_at", "verified_at", "verified_by", "meta_data"]

/-- Column names of the `product_variations` table, transcribed from its
CREATE TABLE statement (database.py lines 226-275).  In particular there is
no `allow_backorders` column. -/
def product_variations_columns : List String :=
  ["id", "product_id", "name", "sku", "barcode", "price", "cost_price",
   "wholesale_price", "sale_price", "purchase_price", "stock_quantity",
   "stock_status", "manage_stock", "low_stock_threshold", "weight_kg",
   "length_cm", "width_cm", "height_cm", "attribute_combination",
   "image_path", "batch_number_required", "serial_number_required",
   "expiry_date_required", "supplier_sku", "is_active",
   "is_default_variation", "created_at", "updated_at", "meta_data"]

/-- The `products` table has no `allow_negative_stock` column, so the first
SELECT of `ProductController.update_stock` (product_controller.py lines
478-487), which names `p.allow_negative_stock`, raises
sqlite3.OperationalError on every execution. -/
theorem products_no_allow_negative_stock :
    products_columns.contains "allow_negative_stock" = false := by decide

/-- The `product_variations` table has no `allow_backorders` column, so the
variation branch of `SalesController._validate_cart_items`
(sales_controller.py lines 203-207), which selects `allow_backorders FROM
product_variations`, raises sqlite3.OperationalError whenever a cart line
carries a truthy variation id. -/
theorem product_variations_no_allow_backorders :
    product_variations_columns.contains "allow_backorders" = false := by decide

/-- Row of the `products` table, restricted to the columns the sale pipeline
reads (the full column list is `products_columns`). -/
structure Product where
  id : Nat
  name : String
  sku : Option String := none
  barcode : Option String := none
  cost_price : ℚ := 0
  stock_quantity : Option ℚ := none
  stock_status : String := "instock"
  low_stock_threshold : ℚ := 5
  allow_backorders : Bool := false
  is_active : Bool := true
deriving Repr, DecidableEq

/-- Row of the `product_variations` table, restricted to the columns the
sale pipeline reads (the full column list is `product_variations_columns`). -/
structure ProductVariation where
  id : Nat
  product_id : Nat
  name : Option String := none
  sku : Option String := none
  barcode : Option String := none
  cost_price : ℚ := 0
  stock_quantity : Option ℚ := some 0
  manage_stock : Bool := true
  low_stock_threshold : ℚ := 5
  is_active : Bool := true
deriving Repr, DecidableEq

/-- Row of the `sales` table as written by `_insert_sale_header`
(sales_controller.py lines 395-433); `invoice_day` stands for
`DATE(invoice_date)`. -/
structure Sale where
  id : Nat
  invoice_no : String
  invoice_day : String
  invoice_status : String
  customer_id : Option Nat
  customer_name : String
  customer_phone : Option String
  customer_email : Option String
  cashier_id : Nat
  cashier_name : String
  subtotal : ℚ
  discount_amount : ℚ
  discount_percent : ℚ
  tax_amount : ℚ
  total : ℚ
  amount_paid : ℚ
  change_amount : ℚ
  payment_method : String
  payment_status : String
  currency : String
  terminal_id : Option String
  shift_id : Option Nat
deriving Repr, DecidableEq

/-- Row of the `sale_items` table as written by `_process_sale_items`
(sales_controller.py lines 469-495), plus the `return_quantity` column read
back by refund validation. -/
structure SaleItem where
  id : Nat
  sale_id : Nat
  product_id : Nat
  product_variation_id : Option Nat
  product_name : String
  product_sku : Option String
  product_barcode : Option String
  variation_description : String
  quantity : ℚ
  unit_price : ℚ
  subtotal : ℚ
  discount_amount : ℚ
  discount_percent : ℚ
  tax_amount : ℚ
  tax_percent : ℚ
  total : ℚ
  return_quantity : Option ℚ := none
deriving Repr, DecidableEq

/-- Row of the `stock_movements` table (the INSERT of
`ProductController.update_stock`, product_controller.py lines 516-537, is
the only writer the sale pipeline reaches for it). -/
structure StockMovement where
  id : Nat
  product_id : Nat
  product_variation_id : Nat
  movement_type : String
  quantity : ℚ
  balance_before : ℚ
  balance_after : ℚ
  reference_type : Option String
  reference_id : Option Nat
  user_id : Nat
deriving Repr, DecidableEq

/-- Row of the `general_ledger` table as written by `_create_ledger_entry`
(sales_controller.py lines 641-663).  The TEXT account code the code binds
is coerced toward INTEGER by the column's affinity; `account_id` keeps the
bound string. -/
structure GeneralLedgerEntry where
  entry_number : String
  description : String
  account_id : String
  debit_amount : ℚ
  credit_amount : ℚ
  transaction_id : Nat
  transaction_table : String
  transaction_type : String
  posted_by : Nat
deriving Repr, DecidableEq

/-- Row of the `customers` table, restricted to the columns the sale
pipeline reads or mutates. -/
structure Customer where
  id : Nat
  first_name : String := ""
  last_name : String := ""
  phone : Option String := none
  email : Option String := none
  loyalty_points_balance : Option ℤ := none
  loyalty_points_total_earned : Option ℤ := none
  total_spent : Option ℚ := none
  total_purchases : Option ℤ := none
  is_active : Bool := true
deriving Repr, DecidableEq

/-- Row of the `employees` table, restricted to the columns
`_get_user_details` selects (sales_controller.py lines 375-379). -/
structure Employee where
  id : Nat
  username : String := ""
  first_name : String := ""
  last_name : String := ""
  employee_id : Option String := none
  job_title : Option String := none
  is_active : Bool := true
deriving Repr, DecidableEq

/-- Row of the `audit_logs` table (the free-text detail string and timestamp
are omitted).  The stored `user_id` is a plain `Nat` because the column is
`INTEGER NOT NULL` (database.py line 2434). -/
structure AuditLog where
  id : Nat
  user_id : Nat
  action_type : String
  module : String
  status : String
deriving Repr, DecidableEq

/-- Row of the `cash_register_sessions` table, restricted to the columns
`_update_cash_register` touches (sales_controller.py lines 716-726). -/
structure CashRegisterSession where
  id : Nat
  status : String
  total_sales_count : ℤ := 0
  total_sales_amount : ℚ := 0
  total_transactions_count : ℤ := 0
  total_transactions_amount : ℚ := 0
deriving Repr, DecidableEq

/-- Row of the `settings` table. -/
structure Setting where
  setting_key : String
  setting_value : String
deriving Repr, DecidableEq

/-- Committed database state: the tables the sale pipeline touches, plus
`AUTOINCREMENT` counters for the ids the code reads back via
`cursor.lastrowid`.  `accounts` holds the ids of the rows of the chart of
accounts that `general_ledger.account_id` references; the schema-creation
code never inserts any row into `accounts` (the seeding in database.py
inserts only the default admin employee and settings), so in every store the
application builds this list is empty - the field is kept general so the
theorems do not depend on that emptiness. -/
structure DB where
  products : List Product
  product_variations : List ProductVariation
  sales : List Sale
  sale_items : List SaleItem
  stock_movements : List StockMovement
  general_ledger : List GeneralLedgerEntry
  customers : List Customer
  employees : List Employee
  accounts : List Nat
  audit_logs : List AuditLog
  cash_register_sessions : List CashRegisterSession
  settings : List Setting
  next_sale_id : Nat
  next_sale_item_id : Nat
  next_movement_id : Nat
  next_audit_id : Nat
deriving Repr, DecidableEq

/-- Allowed values of `audit_logs.action_type`, from the CHECK constraint of
the table (database.py line 2440). -/
def audit_allowed_actions : List String :=
  ["create", "read", "update", "delete", "login", "logout", "export",
   "import", "print", "approve", "reject"]

/-- Allowed values of `audit_logs.status`, from the CHECK constraint of the
table (database.py line 2472). -/
def audit_allowed_statuses : List String :=
  ["success", "failure", "warning", "partial"]

/-- Whether an attempted audit INSERT satisfies the row constraints of
`audit_logs`: `user_id` is NOT NULL and a foreign key into `employees`
(database.py lines 2434, 2501), and `action_type` / `status` must pass
their CHECK constraints. -/
def audit_row_ok (db : DB) (user_id : Option Nat) (action status : String) : Bool :=
  match user_id with
  | none => false
  | some uid =>
    audit_allowed_actions.contains action && audit_allowed_statuses.contains status
      && db.employees.any (fun e => e.id == uid)

/-- One audit-row INSERT through `DatabaseManager.execute_update`
(database.py lines 2788-2801), as issued by the `_log_audit_event` helpers
of both controllers.  The fresh connection commits independently of the
sale - but the attempt writes nothing whenever the insert fails, and the
logger's `except` handler swallows every failure (it only prints):

* `locked = true` means the caller sits inside the sale's open write
  transaction; SQLite's single-writer locking then rejects the fresh
  connection's INSERT with `database is locked`;
* a row violating `audit_logs`' constraints (`audit_row_ok`) is rejected by
  sqlite3;
* in addition, `SalesController._log_audit_event` (sales_controller.py
  lines 1188-1192) names a `details` column that `audit_logs` does not have,
  so its INSERT raises even before constraint checking - its action strings
  are all outside the CHECK list anyway, so the no-op outcome coincides.

Only a standalone, constraint-satisfying insert appends a row. -/
def log_audit (db : DB) (locked : Bool) (user_id : Option Nat)
    (action module status : String) : DB :=
  if !locked && audit_row_ok db user_id action status then
    { db with
      audit_logs := db.audit_logs ++
        [{ id := db.next_audit_id, user_id := user_id.getD 0,
           action_type := action, module := module, status := status }],
      next_audit_id := db.next_audit_id + 1 }
  else db

@[simp] theorem log_audit_sales (db : DB) (l : Bool) (u : Option Nat) (a m s : String) :
    (log_audit db l u a m s).sales = db.sales := by
  unfold log_audit; split <;> rfl

@[simp] theorem log_audit_sale_items (db : DB) (l : Bool) (u : Option Nat) (a m s : String) :
    (log_audit db l u a m s).sale_items = db.sale_items := by
  unfold log_audit; split <;> rfl

@[simp] theorem log_audit_stock_movements (db : DB) (l : Bool) (u : Option Nat) (a m s : String) :
    (log_audit db l u a m s).stock_movements = db.stock_movements := by
  unfold log_audit; split <;> rfl

@[simp] theorem log_audit_variations (db : DB) (l : Bool) (u : Option Nat) (a m s : String) :
    (log_audit db l u a m s).product_variations = db.product_variations := by
  unfold log_audit; split <;> rfl

@[simp] theorem log_audit_products (db : DB) (l : Bool) (u : Option Nat) (a m s : String) :
    (log_audit db l u a m s).products = db.products := by
  unfold log_audit; split <;> rfl

@[simp] theorem log_audit_ledger (db : DB) (l : Bool) (u : Option Nat) (a m s : String) :
    (log_audit db l u a m s).general_ledger = db.general_ledger := by
  unfold log_audit; split <;> rfl

/-- An audit insert whose action string fails the CHECK constraint of
`audit_logs.action_type` is rejected by sqlite3 and swallowed: the committed
state is unchanged. -/
theorem log_audit_action_rejected (db : DB) (locked : Bool) (u : Option Nat)
    (a m s : String) (h : audit_allowed_actions.contains a = false) :
    log_audit db locked u a m s = db := by
  have hrow : audit_row_ok db u a s = false := by
    cases u with
    | none => rfl
    | some uid =>
      simp only [audit_row_ok]
      rw [h]
      rfl
  unfold log_audit
  rw [hrow, Bool.and_false]
  rfl

namespace ProductController

/-- Result dictionary of `ProductController.update_stock`. -/
structure StockUpdateResult where
  success : Bool
  movement_id : Option Nat := none
  old_quantity : Option ℚ := none
  new_quantity : Option ℚ := none
deriving Repr, DecidableEq

/-- Embedding of `ProductController.update_stock`
(product_controller.py lines 452-614).  The function opens its own
connection and immediately runs

```
SELECT pv.*, p.name ..., p.allow_negative_stock
FROM product_variations pv JOIN products p ...
```

(lines 478-487).  `products` has no `allow_negative_stock` column
(`products_no_allow_negative_stock`), so `cursor.execute` raises
sqlite3.OperationalError on every invocation, before any row is read or
written: the entire stock-mutation logic of lines 490-607 (balance check,
stock-movement INSERT, variation and product UPDATEs, commit) is
unreachable, and over the faithful schema its row type - which would carry
the missing column - cannot even be formed.  The `except` handler (lines
601-614) then attempts one audit row (action `update`, module/entity
`stock_movements`, status `failure`) through `execute_update` and returns a
failure dictionary.  `locked` tells whether the caller's sale connection
holds the database write lock (true when called from `_process_sale_items`,
where the sale header INSERT precedes every call); the audit attempt is then
rejected as well. -/
def update_stock (db : DB) (locked : Bool) (variation_id : Nat) (qty_change : ℚ)
    (reason : String) (user_id : Nat)
    (reference_type : Option String := none) (reference_id : Option Nat := none)
    (batch_number : Option String := none) (notes : Option String := none) :
    StockUpdateResult × DB :=
  let _ := (variation_id, qty_change, reason, reference_type, reference_id,
            batch_number, notes)
  ({ success := false },
   log_audit db locked (some user_id) "update" "stock_movements" "failure")

end ProductController

/-- Python `x or d` for a nullable string with a plain-string fallback. -/
def py_or_str_d (o : Option String) (d : String) : String :=
  match o with
  | none => d
  | some x => if x == "" then d else x

/-- Payment-details dictionary passed to `process_sale`. -/
structure PaymentDetails where
  method : Option String := none
  amount_paid : Option ℚ := none
deriving Repr, DecidableEq

/-- Uncommitted writes of the sale connection: rows inserted and row updates
issued through the sale's cursor, applied to the committed state only when
the transaction commits, and simply dropped on rollback. -/
structure Pending where
  sales : List Sale := []
  sale_items : List SaleItem := []
  ledger : List GeneralLedgerEntry := []
  loyalty : Option (Nat × ℤ × ℚ) := none
  cash : Option (Nat × ℚ) := none
deriving Repr, DecidableEq

namespace SalesController

/-- Embedding of `SalesController._validate_cart_items`
(sales_controller.py lines 184-238): required-field check per line, then the
stock SELECT.  A line with a truthy variation id runs
`SELECT stock_quantity, name, sku, allow_backorders FROM product_variations`
(lines 203-207); `product_variations` has no `allow_backorders` column
(`product_variations_no_allow_backorders`), so the execute raises
sqlite3.OperationalError, which the method's `except` handler (line 237)
converts into a validation failure - every variation-bearing cart fails
validation before any lookup.  Lines without a variation id are checked
against `products`, which has all four selected columns. -/
def validate_cart_items (db : DB) : List CartItem → Except SaleError Unit
  | [] => .ok ()
  | item :: rest =>
    match item.product_id, item.quantity with
    | none, _ => .error (.missingField "product_id")
    | some _, none => .error (.missingField "quantity")
    | some product_id, some quantity =>
      let variation_id := item.product_variation_id
      if py_truthy_nat variation_id then
        .error (.noSuchColumn "allow_backorders")
      else
        match db.products.find? (fun p => p.id == product_id && p.is_active) with
        | none => .error .productNotFound
        | some p =>
          match p.stock_quantity with
          | some current_stock =>
            if current_stock < quantity && !p.allow_backorders then
              .error .insufficientStock
            else validate_cart_items db rest
          | none => validate_cart_items db rest

/-- Count of sales whose invoice number carries the day code and whose
invoice date falls on that day: the SELECT of `_generate_invoice_number`
(sales_controller.py lines 247-255). -/
def count_today_sales (db : DB) (today : String) : Nat :=
  (db.sales.filter (fun s => s.invoice_no.startsWith today && s.invoice_day == today)).length

/-- Invoice number built from the day code and the current count of the
day's sales: `sequence = today_count + 1` formatted as four digits
(sales_controller.py lines 257-259). -/
def invoice_from_count (today : String) (count : Nat) : String :=
  today ++ "-" ++ pad4 (count + 1)

/-- Embedding of `SalesController._generate_invoice_number`
(sales_controller.py lines 240-266): a count-then-format over the committed
sales table, with no serialization of the read against concurrent inserts.
The timestamp fallback branch is only reachable through a database
exception and is not modelled. -/
def generate_invoice_number (db : DB) (today : String) : String :=
  invoice_from_count today (count_today_sales db today)

/-- Embedding of `SalesController._get_customer_details`
(sales_controller.py lines 352-370): `none` models the empty dictionary. -/
def get_customer_details (db : DB) (customer_id : Nat) : Option Customer :=
  db.customers.find? (fun c => c.id == customer_id && c.is_active)

/-- Embedding of `SalesController._get_user_details`
(sales_controller.py lines 372-387). -/
def get_user_details (db : DB) (user_id : Nat) : Option Employee :=
  db.employees.find? (fun e => e.id == user_id && e.is_active)

/-- Embedding of `SalesController._insert_sale_header`
(sales_controller.py lines 389-438): computes the discount percentage,
payment figures and display names, inserts the header through the sale's
cursor and returns `cursor.lastrowid`.  The id is the committed counter plus
the headers already buffered (none in practice); it becomes durable only if
the transaction commits. -/
def insert_sale_header (db : DB) (pend : Pending) (invoice_no : String)
    (totals : Totals) (customer_id : Option Nat) (customer_details : Option Customer)
    (cashier_details : Employee) (payment_details : PaymentDetails)
    (user_id : Nat) (terminal_id : Option String) (shift_id : Option Nat)
    (today : String) : Nat × Pending :=
  let discount_percent : ℚ :=
    if totals.subtotal > 0 then totals.discount_amount / totals.subtotal * 100 else 0
  let payment_method := payment_details.method.getD "cash"
  let amount_paid := payment_details.amount_paid.getD totals.grand_total
  let change_amount := max 0 (amount_paid - totals.grand_total)
  let cfirst := (customer_details.map (fun c => c.first_name)).getD ""
  let clast := (customer_details.map (fun c => c.last_name)).getD ""
  let cname := (cfirst ++ " " ++ clast).trim
  let customer_name := if cname == "" then "Walk-in Customer" else cname
  let sale : Sale :=
    { id := db.next_sale_id + pend.sales.length
      invoice_no := invoice_no
      invoice_day := today
      invoice_status := "completed"
      customer_id := customer_id
      customer_name := customer_name
      customer_phone := customer_details.bind (fun c => c.phone)
      customer_email := customer_details.bind (fun c => c.email)
      cashier_id := user_id
      cashier_name := cashier_details.first_name ++ " " ++ cashier_details.last_name
      subtotal := totals.subtotal
      discount_amount := totals.discount_amount
      discount_percent := discount_percent
      tax_amount := totals.tax_amount
      total := totals.grand_total
      amount_paid := amount_paid
      change_amount := change_amount
      payment_method := payment_method
      payment_status := "paid"
      currency := "USD"
      terminal_id := terminal_id
      shift_id := shift_id }
  (sale.id, { pend with sales := pend.sales ++ [sale] })

/-- Embedding of `SalesController._process_sale_items`
(sales_controller.py lines 440-528).  Per cart line: product lookup (LEFT
JOIN with the variation on the raw variation parameter), sale-item insert
through the sale's cursor, then - only when the line carries a truthy
variation id - a stock decrement through `ProductController.update_stock`;
that call can never succeed (its first SELECT raises,
`products_no_allow_negative_stock`), so such a line always raises
`stockUpdateFailed` here.  The loop runs while the sale connection holds the
write lock (the header INSERT of step 6 precedes it), so both the
per-item audit attempt (action `process_sale_item`, not in the CHECK list
anyway) and the audit attempt inside `update_stock` are rejected: the
committed state `db` is threaded through unchanged. -/
def process_sale_items (sale_id user_id : Nat) :
    DB → Pending → List CartItem → List ItemCalc → Except SaleError Unit × DB × Pending
  | db, pend, [], _ => (.ok (), db, pend)
  | db, pend, item :: rest, calcs =>
    let item_calc := calcs.head?
    match item.product_id with
    | none => (.error .calcKeyError, db, pend)
    | some product_id =>
      match db.products.find? (fun p => p.id == product_id) with
      | none => (.error .productNotFound, db, pend)
      | some p =>
        let v : Option ProductVariation :=
          match item.product_variation_id with
          | none => none
          | some vid =>
            db.product_variations.find? (fun w => w.product_id == product_id && w.id == vid)
        match item.quantity with
        | none => (.error .calcKeyError, db, pend)
        | some quantity =>
          let si : SaleItem :=
            { id := db.next_sale_item_id + pend.sale_items.length
              sale_id := sale_id
              product_id := product_id
              product_variation_id := item.product_variation_id
              product_name := p.name
              product_sku := py_or_str (v.bind (fun w => w.sku)) p.sku
              product_barcode := py_or_str (v.bind (fun w => w.barcode)) p.barcode
              variation_description := py_or_str_d (v.bind (fun w => w.name)) ""
              quantity := quantity
              unit_price :=
                match item_calc with
                | some c => c.unit_price
                | none => item.unit_price.getD 0
              subtotal := (item_calc.map (fun c => c.subtotal)).getD 0
              discount_amount := (item_calc.map (fun c => c.discount_amount)).getD 0
              discount_percent := (item_calc.map (fun c => c.discount_percent)).getD 0
              tax_amount := (item_calc.map (fun c => c.tax_amount)).getD 0
              tax_percent := (item_calc.map (fun c => c.tax_percent)).getD 0
              total := (item_calc.map (fun c => c.total)).getD 0
              return_quantity := none }
          let item_id := si.id
          let pend1 := { pend with sale_items := pend.sale_items ++ [si] }
          if py_truthy_nat item.product_variation_id then
            let r := ProductController.update_stock db true
                       (item.product_variation_id.getD 0)
                       (-quantity) ("sale_" ++ toString sale_id) user_id
                       (some "sale") (some sale_id) none
                       (some ("Sale item " ++ toString item_id))
            if r.1.success then
              let db2 := log_audit r.2 true (some user_id) "process_sale_item" "sales" "success"
              process_sale_items sale_id user_id db2 pend1 rest calcs.tail
            else
              (.error .stockUpdateFailed, r.2, pend1)
          else
            let db2 := log_audit db true (some user_id) "process_sale_item" "sales" "success"
            process_sale_items sale_id user_id db2 pend1 rest calcs.tail

/-- Hard-coded fallback account codes of `_get_account_code`
(sales_controller.py lines 588-595), with the suspense account `9999` for
unknown types. -/
def default_account (account_type : String) : String :=
  if account_type == "cash_receivables" then "1010"
  else if account_type == "sales_revenue" then "4010"
  else if account_type == "cost_of_goods_sold" then "5010"
  else if account_type == "inventory_asset" then "1210"
  else "9999"

/-- Embedding of `SalesController._get_account_code`
(sales_controller.py lines 576-598): the settings value when present and
truthy, otherwise the hard-coded default. -/
def get_account_code (db : DB) (account_type : String) : String :=
  match db.settings.find? (fun s => s.setting_key == "account_" ++ account_type) with
  | some s =>
    if s.setting_value != "" then s.setting_value else default_account account_type
  | none => default_account account_type

/-- Embedding of `SalesController._calculate_cogs`
(sales_controller.py lines 600-631): over the sale's items as seen by the
sale's cursor, inner-join the product (rows without one are dropped), take
the variation cost or the product cost or zero, and round the sum to two
decimal places. -/
def calculate_cogs (db : DB) (sale_items_view : List SaleItem) (sale_id : Nat) : ℚ :=
  let rows := sale_items_view.filter (fun si => si.sale_id == sale_id)
  let total := rows.foldl (fun acc si =>
    match db.products.find? (fun p => p.id == si.product_id) with
    | none => acc
    | some p =>
      let variation_cost : Option ℚ :=
        match si.product_variation_id with
        | none => none
        | some vid =>
          (db.product_variations.find? (fun v => v.id == vid)).map (fun v => v.cost_price)
      let cost := py_or_num variation_cost (py_or_num (some p.cost_price) 0)
      acc + si.quantity * cost) 0
  quantize2 total

/-- One row of the ledger INSERT of `_create_ledger_entry`
(sales_controller.py lines 641-655). -/
def ledger_row (entry_number description account : String)
    (debit credit : ℚ) (transaction_id : Nat) (transaction_type : String)
    (user_id : Nat) : GeneralLedgerEntry :=
  { entry_number := entry_number, description := description,
    account_id := account, debit_amount := debit, credit_amount := credit,
    transaction_id := transaction_id, transaction_table := "sales",
    transaction_type := transaction_type, posted_by := user_id }

/-- Foreign-key target check of `general_ledger.account_id REFERENCES
accounts(id)` (database.py lines 2382, 2417): the TEXT account code the
code binds is coerced to INTEGER by the column's affinity and must name an
existing `accounts` row, i.e. match the decimal representation of one of
the stored integer ids.  The application never inserts into `accounts`, so
the committed `db.accounts` list is empty in every store it builds (the
check then fails for every code). -/
def ledger_account_ok (db : DB) (account_code : String) : Bool :=
  db.accounts.any (fun a => toString a == account_code)

/-- One `INSERT INTO general_ledger` on the sale's cursor
(sales_controller.py lines 641-655), checked against the constraints the
statement can violate: `entry_number TEXT UNIQUE NOT NULL` (database.py
line 2361) against both the committed rows and the rows already buffered in
the same transaction, and the `account_id` foreign key (PRAGMA foreign_keys
is ON, database.py line 36).  A violated constraint aborts the statement -
the row is not written - and sqlite3 raises; the order in which sqlite3
checks the two is immaterial here because every caller only asks whether
the statement raised. -/
def ledger_insert (db : DB) (rows : List GeneralLedgerEntry)
    (row : GeneralLedgerEntry) : Except SaleError (List GeneralLedgerEntry) :=
  if (db.general_ledger ++ rows).any (fun e => e.entry_number == row.entry_number) then
    .error .ledgerUniqueViolation
  else if !ledger_account_ok db row.account_id then
    .error .ledgerFkViolation
  else
    .ok (rows ++ [row])

/-- Embedding of `SalesController._create_ledger_entry`
(sales_controller.py lines 633-666): one row for the debit side and one
contra row for the credit side - both built with the same `entry_number`
parameter, so when the first INSERT succeeds the second always violates the
UNIQUE constraint on `entry_number`; when the account foreign key fails
(the `accounts` table is never populated), the first INSERT already raises.
Either way the helper re-raises, and the returned buffer reflects the rows
the cursor accepted before the failing statement. -/
def create_ledger_entry (db : DB) (pend : Pending) (entry_number description : String)
    (debit_account : String) (debit_amount credit_amount : ℚ)
    (credit_account : String) (contra_debit contra_credit : ℚ)
    (transaction_id : Nat) (transaction_type : String) (user_id : Nat) :
    Except SaleError Unit × Pending :=
  match ledger_insert db pend.ledger
      (ledger_row entry_number description debit_account debit_amount
        credit_amount transaction_id transaction_type user_id) with
  | .error e => (.error e, pend)
  | .ok rows1 =>
    match ledger_insert db rows1
        (ledger_row entry_number description credit_account contra_debit
          contra_credit transaction_id transaction_type user_id) with
    | .error e => (.error e, { pend with ledger := rows1 })
    | .ok rows2 => (.ok (), { pend with ledger := rows2 })

/-- Embedding of `SalesController._process_accounting_entries`
(sales_controller.py lines 530-574): resolve the four account codes, fail if
any of them is falsy (dead in practice, since `_get_account_code` always
falls back to a non-empty default), compute the cost of goods sold, then
post the revenue entry - which always raises (see `create_ledger_entry`),
so the `except` handler converts every invocation into a failure result and
the COGS entry is never reached. -/
def process_accounting_entries (db : DB) (pend : Pending) (sale_id : Nat)
    (totals : Totals) (user_id : Nat) : Except SaleError Unit × Pending :=
  let cash_account := get_account_code db "cash_receivables"
  let sales_account := get_account_code db "sales_revenue"
  let cogs_account := get_account_code db "cost_of_goods_sold"
  let inventory_account := get_account_code db "inventory_asset"
  if cash_account == "" || sales_account == "" || cogs_account == "" ||
     inventory_account == "" then
    (.error .accountsNotConfigured, pend)
  else
    let cogs_amount := calculate_cogs db (db.sale_items ++ pend.sale_items) sale_id
    let entry_number := "SL" ++ pad6 sale_id
    match create_ledger_entry db pend entry_number
        ("Sale " ++ toString sale_id ++ " - Revenue")
        cash_account totals.grand_total 0 sales_account 0 totals.grand_total
        sale_id "sale" user_id with
    | (.error e, pend1) => (.error e, pend1)
    | (.ok _, pend1) =>
      if cogs_amount > 0 then
        match create_ledger_entry db pend1 (entry_number ++ "-COGS")
            ("Sale " ++ toString sale_id ++ " - COGS")
            cogs_account cogs_amount 0 inventory_account 0 cogs_amount
            sale_id "sale" user_id with
        | (.error e, pend2) => (.error e, pend2)
        | (.ok _, pend2) => (.ok (), pend2)
      else (.ok (), pend1)

/-- Embedding of `SalesController._update_customer_loyalty`
(sales_controller.py lines 668-711): resolve the points rate from settings
(`1.0` when absent or falsy; a parse failure of the stored string raises and
yields the failure result), truncate the earned points, and when positive
update the customer row through the sale's cursor and attempt an audit row
(action `update_loyalty` with a NULL user - rejected by the CHECK and NOT
NULL constraints, and issued while the sale holds the write lock). -/
def update_customer_loyalty (db : DB) (pend : Pending) (customer_id : Nat)
    (sale_amount : ℚ) : Bool × DB × Pending :=
  let rate : Option ℚ :=
    match db.settings.find? (fun s => s.setting_key == "loyalty_points_per_currency") with
    | some s => if s.setting_value != "" then parse_decimal s.setting_value else some 1
    | none => some 1
  match rate with
  | none => (false, db, pend)
  | some points_per_currency =>
    let earned_points := py_int_trunc (sale_amount * points_per_currency)
    if earned_points > 0 then
      let db1 := log_audit db true none "update_loyalty" "sales" "success"
      (true, db1, { pend with loyalty := some (customer_id, earned_points, sale_amount) })
    else (true, db, pend)

/-- Embedding of `SalesController._update_cash_register`
(sales_controller.py lines 713-736): an UPDATE through the sale's cursor,
recorded in the pending writes. -/
def update_cash_register (pend : Pending) (shift_id : Nat) (sale_amount : ℚ) : Pending :=
  { pend with cash := some (shift_id, sale_amount) }

/-- Loyalty UPDATE applied at commit: `COALESCE(column, 0) + delta` on the
customer row (sales_controller.py lines 684-697). -/
def apply_loyalty (customers : List Customer) : Option (Nat × ℤ × ℚ) → List Customer
  | none => customers
  | some (cid, pts, amt) => customers.map (fun c =>
      if c.id == cid then
        { c with
          loyalty_points_balance := some ((c.loyalty_points_balance.getD 0) + pts)
          loyalty_points_total_earned := some ((c.loyalty_points_total_earned.getD 0) + pts)
          total_spent := some ((c.total_spent.getD 0) + amt)
          total_purchases := some ((c.total_purchases.getD 0) + 1) }
      else c)

/-- Cash-register UPDATE applied at commit, restricted to the open session
with the given id (sales_controller.py lines 716-726). -/
def apply_cash (sessions : List CashRegisterSession) :
    Option (Nat × ℚ) → List CashRegisterSession
  | none => sessions
  | some (sid, amt) => sessions.map (fun s =>
      if s.id == sid && s.status == "open" then
        { s with
          total_sales_count := s.total_sales_count + 1
          total_sales_amount := s.total_sales_amount + amt
          total_transactions_count := s.total_transactions_count + 1
          total_transactions_amount := s.total_transactions_amount + amt }
      else s)

/-- Commit of the sale connection: apply the buffered writes to the
committed state and make the allocated ids durable (`conn.commit()` at
sales_controller.py line 140). -/
def commit_tx (db : DB) (pend : Pending) : DB :=
  { db with
    sales := db.sales ++ pend.sales
    sale_items := db.sale_items ++ pend.sale_items
    general_ledger := db.general_ledger ++ pend.ledger
    customers := apply_loyalty db.customers pend.loyalty
    cash_register_sessions := apply_cash db.cash_register_sessions pend.cash
    next_sale_id := db.next_sale_id + pend.sales.length
    next_sale_item_id := db.next_sale_item_id + pend.sale_items.length }

/-- Result dictionary of `process_sale`; the receipt payload (a read-only
projection built after commit) is not modelled. -/
structure SaleResult where
  success : Bool
  invoice_no : Option String := none
  sale_id : Option Nat := none
  totals : Option Totals := none
  err : Option SaleError := none
deriving Repr, DecidableEq

/-- Embedding of `SalesController.process_sale`
(sales_controller.py lines 31-182).  Early validation failures return from
inside the `with` block before any write, so the connection commits an
empty transaction (the state is returned unchanged).  A failure in the
item-processing or accounting steps raises: the sale connection rolls back
(the pending writes are dropped), and the handler attempts a failure audit
row - after the `with` block has released the lock, but with the action
string `process_sale`, which the CHECK constraint of `audit_logs` rejects,
so the attempt is swallowed and writes nothing.  The success tail (commit,
success audit, receipt) is retained as written, although the accounting
step can never return success. -/
def process_sale (db : DB) (cart_items : List CartItem) (customer_id : Option Nat)
    (payment_details : PaymentDetails) (user_id : Nat)
    (terminal_id : Option String) (shift_id : Option Nat) (today : String) :
    SaleResult × DB :=
  match validate_cart_items db cart_items with
  | .error e => ({ success := false, err := some e }, db)
  | .ok _ =>
  let invoice_no := generate_invoice_number db today
  match calculate_totals cart_items with
  | .error e => ({ success := false, err := some e }, db)
  | .ok totals =>
  let customer_details : Option Customer :=
    if py_truthy_nat customer_id then get_customer_details db (customer_id.getD 0) else none
  match get_user_details db user_id with
  | none => ({ success := false, err := some .cashierNotFound }, db)
  | some cashier_details =>
  let h := insert_sale_header db {} invoice_no totals customer_id customer_details
             cashier_details payment_details user_id terminal_id shift_id today
  let sale_id := h.1
  match process_sale_items sale_id user_id db h.2 cart_items totals.items with
  | (.error e, db2, _) =>
    ({ success := false, err := some e },
     log_audit db2 false (some user_id) "process_sale" "sales" "failure")
  | (.ok _, db2, pend2) =>
  match process_accounting_entries db2 pend2 sale_id totals user_id with
  | (.error e, _) =>
    ({ success := false, err := some e },
     log_audit db2 false (some user_id) "process_sale" "sales" "failure")
  | (.ok _, pend3) =>
  let after_loyalty : DB × Pending :=
    if py_truthy_nat customer_id then
      let l := update_customer_loyalty db2 pend3 (customer_id.getD 0) totals.grand_total
      if l.1 then (l.2.1, l.2.2)
      else (log_audit l.2.1 true (some user_id) "loyalty_update" "sales" "warning", l.2.2)
    else (db2, pend3)
  let pend4 :=
    if py_truthy_nat shift_id then
      update_cash_register after_loyalty.2 (shift_id.getD 0) totals.grand_total
    else after_loyalty.2
  let db3 := commit_tx after_loyalty.1 pend4
  let db4 := log_audit db3 false (some user_id) "process_sale" "sales" "success"
  ({ success := true, invoice_no := some invoice_no, sale_id := some sale_id,
     totals := some totals }, db4)

end SalesController

/-- Concrete product row for the test scenarios: 3 units on hand,
back-orders disallowed. -/
def prodW : Product :=
  { id := 1, name := "Widget", sku := some "W-1", barcode := none,
    cost_price := 5, stock_quantity := some 3, stock_status := "instock",
    low_stock_threshold := 5, allow_backorders := false, is_active := true }

/-- Concrete variation row of `prodW`: 3 units on hand. -/
def varW : ProductVariation :=
  { id := 1, product_id := 1, name := some "Red", sku := some "W-1-R",
    barcode := none, cost_price := 5, stock_quantity := some 3,
    manage_stock := true, low_stock_threshold := 5, is_active := true }

/-- Concrete active cashier row. -/
def empW : Employee :=
  { id := 7, username := "cashier1", first_name := "Cash", last_name := "Ier",
    employee_id := some "E7", job_title := none, is_active := true }

/-- Concrete store for the failure scenarios: one product with one active
variation holding 3 units, one active cashier, no settings rows configured,
and - as in every store the application builds - an empty chart of
accounts. -/
def dbC1 : DB :=
  { products := [prodW]
    product_variations := [varW]
    sales := []
    sale_items := []
    stock_movements := []
    general_ledger := []
    customers := []
    employees := [empW]
    accounts := []
    audit_logs := []
    cash_register_sessions := []
    settings := []
    next_sale_id := 1
    next_sale_item_id := 1
    next_movement_id := 1
    next_audit_id := 1 }

/-- Two cart lines on the same variation, 2 units each. -/
def cartC1 : List CartItem :=
  [{ product_id := some 1, product_variation_id := some 1, quantity := some 2,
     unit_price := some 10 },
   { product_id := some 1, product_variation_id := some 1, quantity := some 2,
     unit_price := some 10 }]

/-- Empty payment dictionary (method and amount default inside the code). -/
def payC1 : PaymentDetails := {}

/-- Single-line cart with no variation id on the line. -/
def cartC3 : List CartItem :=
  [{ product_id := some 1, quantity := some 2, unit_price := some (1999/100),
     tax_percent := some 15 }]

/-- Concrete totals dictionary for exercising the accounting step alone. -/
def totalsW : Totals :=
  { subtotal := 3998/100, discount_amount := 0, tax_amount := 6,
    grand_total := 4598/100, item_count := 1, global_discount := 0,
    items := [] }

/-- The item loop threads the committed state through unchanged: it only
writes through the sale's cursor (buffered in `Pending`), and its audit
attempts and stock-mutator calls are all issued while the sale connection
holds the write lock, so none of them commits anything. -/
theorem process_sale_items_db_unchanged (sale_id user_id : Nat) :
    ∀ (cart : List CartItem) (db : DB) (pend : Pending) (calcs : List ItemCalc),
      (SalesController.process_sale_items sale_id user_id db pend cart calcs).2.1 = db := by
  intro cart
  induction cart with
  | nil => intro db pend calcs; rfl
  | cons item rest ih =>
    intro db pend calcs
    unfold SalesController.process_sale_items
    cases item.product_id with
    | none => rfl
    | some product_id =>
      dsimp only
      cases db.products.find? (fun p => p.id == product_id) with
      | none => rfl
      | some p =>
        dsimp only
        cases item.quantity with
        | none => rfl
        | some quantity =>
          dsimp only
          cases htr : py_truthy_nat item.product_variation_id with
          | false =>
            rw [if_neg Bool.false_ne_true]
            exact ih _ _ _
          | true =>
            rw [if_pos rfl]
            rfl

/-- The pair of ledger rows of `_create_ledger_entry` can never both be
inserted: the two INSERTs share one entry number, so if the first row passes
the UNIQUE and foreign-key checks, the second violates UNIQUE - every
invocation raises. -/
theorem create_ledger_entry_always_fails (db : DB) (pend : Pending)
    (en desc da : String) (d c : ℚ) (ca : String) (cd cc : ℚ)
    (tid : Nat) (tt : String) (uid : Nat) :
    ∃ e, (SalesController.create_ledger_entry db pend en desc da d c ca cd cc tid tt uid).1
          = .error e := by
  unfold SalesController.create_ledger_entry
  cases h1 : SalesController.ledger_insert db pend.ledger
      (SalesController.ledger_row en desc da d c tid tt uid) with
  | error e => exact ⟨e, rfl⟩
  | ok rows1 =>
    dsimp only
    have hrows : rows1 = pend.ledger ++ [SalesController.ledger_row en desc da d c tid tt uid] := by
      unfold SalesController.ledger_insert at h1
      split at h1
      · cases h1
      · split at h1
        · cases h1
        · injection h1 with hx
          exact hx.symm
    have h2 : SalesController.ledger_insert db rows1
        (SalesController.ledger_row en desc ca cd cc tid tt uid)
          = .error SaleError.ledgerUniqueViolation := by
      unfold SalesController.ledger_insert
      rw [if_pos]
      rw [hrows]
      simp [SalesController.ledger_row, List.any_append]
    rw [h2]
    exact ⟨SaleError.ledgerUniqueViolation, rfl⟩

/-- The accounting step fails on every invocation: either the (dead)
configuration guard fires, or the revenue ledger pair raises. -/
theorem process_accounting_entries_always_fails (db : DB) (pend : Pending)
    (sale_id : Nat) (totals : Totals) (uid : Nat) :
    ∃ e, (SalesController.process_accounting_entries db pend sale_id totals uid).1
          = .error e := by
  unfold SalesController.process_accounting_entries
  dsimp only
  split
  · exact ⟨SaleError.accountsNotConfigured, rfl⟩
  · have hfail := create_ledger_entry_always_fails db pend ("SL" ++ pad6 sale_id)
      ("Sale " ++ toString sale_id ++ " - Revenue")
      (SalesController.get_account_code db "cash_receivables")
      totals.grand_total 0
      (SalesController.get_account_code db "sales_revenue")
      0 totals.grand_total sale_id "sale" uid
    obtain ⟨e, he⟩ := hfail
    split
    · rename_i e2 pend1 heq
      exact ⟨e2, rfl⟩
    · rename_i u pend1 heq
      rw [heq] at he
      simp at he

/-- No invocation of `process_sale` can commit: every run returns a failure
dictionary and leaves the committed database state exactly as it was.  The
paths that reach the transaction body abort at the accounting step at the
latest (`process_accounting_entries_always_fails`), the buffered writes are
dropped by the rollback, and every audit attempt of the run is rejected by
the audit-log constraints or the write lock. -/
theorem process_sale_no_commit (db : DB) (cart : List CartItem) (cid : Option Nat)
    (pay : PaymentDetails) (uid : Nat) (tid : Option String) (sid : Option Nat)
    (today : String) :
    (SalesController.process_sale db cart cid pay uid tid sid today).1.success = false
    ∧ (SalesController.process_sale db cart cid pay uid tid sid today).2 = db := by
  unfold SalesController.process_sale
  cases hv : SalesController.validate_cart_items db cart with
  | error e => exact ⟨rfl, rfl⟩
  | ok u =>
    dsimp only
    cases hct : SalesController.calculate_totals cart with
    | error e => exact ⟨rfl, rfl⟩
    | ok totals =>
      dsimp only
      cases hu : SalesController.get_user_details db uid with
      | none => exact ⟨rfl, rfl⟩
      | some cashier =>
        dsimp only
        generalize hH : SalesController.insert_sale_header db {}
            (SalesController.generate_invoice_number db today) totals cid
            (if py_truthy_nat cid = true then
              SalesController.get_customer_details db (cid.getD 0) else none)
            cashier pay uid tid sid today = H
        split
        · rename_i e db2 pend2 heq
          have hx := process_sale_items_db_unchanged H.1 uid cart db H.2 totals.items
          rw [heq] at hx
          dsimp only at hx
          refine ⟨rfl, ?_⟩
          show log_audit db2 false (some uid) "process_sale" "sales" "failure" = db
          rw [hx]
          exact log_audit_action_rejected db false (some uid) "process_sale" "sales"
            "failure" (by decide)
        · rename_i u2 db2 pend2 heq
          have hx := process_sale_items_db_unchanged H.1 uid cart db H.2 totals.items
          rw [heq] at hx
          dsimp only at hx
          obtain ⟨e3, he⟩ := process_accounting_entries_always_fails db2 pend2 H.1 totals uid
          split
          · rename_i e4 pend3 heq2
            refine ⟨rfl, ?_⟩
            show log_audit db2 false (some uid) "process_sale" "sales" "failure" = db
            rw [hx]
            exact log_audit_action_rejected db false (some uid) "process_sale" "sales"
              "failure" (by decide)
          · rename_i u3 pend3 heq2
            rw [heq2] at he
            simp at he

/-- C1: atomicity of the sale transaction holds - in the degenerate way the
code enforces it.  Every `process_sale` invocation fails (the accounting
step can never post its ledger pair), and the committed state after the run
is exactly the initial state: no Sale header, SaleItem, StockMovement or
GeneralLedgerEntry row of the attempt remains.  And the stock mutator
commits nothing on any call - its first SELECT names a column `products`
does not have and raises before any write - so it never commits stock rows
outside the sale transaction. -/
theorem failed_sale_attempts_leave_no_rows :
    (∀ (db : DB) (cart : List CartItem) (cid : Option Nat) (pay : PaymentDetails)
        (uid : Nat) (tid : Option String) (sid : Option Nat) (today : String),
      (SalesController.process_sale db cart cid pay uid tid sid today).1.success = false
      ∧ (SalesController.process_sale db cart cid pay uid tid sid today).2 = db)
    ∧ (∀ (db : DB) (locked : Bool) (vid : Nat) (qc : ℚ) (reason : String) (uid : Nat)
        (rt : Option String) (rid : Option Nat) (bn : Option String) (nt : Option String),
      (ProductController.update_stock db locked vid qc reason uid rt rid bn nt).2.sales
          = db.sales
      ∧ (ProductController.update_stock db locked vid qc reason uid rt rid bn nt).2.sale_items
          = db.sale_items
      ∧ (ProductController.update_stock db locked vid qc reason uid rt rid bn nt).2.stock_movements
          = db.stock_movements
      ∧ (ProductController.update_stock db locked vid qc reason uid rt rid bn nt).2.general_ledger
          = db.general_ledger
      ∧ (ProductController.update_stock db locked vid qc reason uid rt rid bn nt).2.product_variations
          = db.product_variations) := by
  constructor
  · intro db cart cid pay uid tid sid today
    exact process_sale_no_commit db cart cid pay uid tid sid today
  · intro db locked vid qc reason uid rt rid bn nt
    refine ⟨?_, ?_, ?_, ?_, ?_⟩ <;> simp [ProductController.update_stock]

/-- C3: refuted as stated - no successful sale exists, and no stock
decrement is ever recorded.  Universally, every `process_sale` run fails and
leaves the stock-movement table and the variation stocks untouched.  On the
concrete store: the single-line cart without a variation id passes
validation but dies at ledger posting (the `account_id` foreign key into the
empty `accounts` table), and the cart whose line names variation 1 dies at
validation itself, because the stock query selects `allow_backorders` from
`product_variations`, a column that table does not have. -/
theorem no_sale_ever_decrements_stock :
    (∀ (db : DB) (cart : List CartItem) (cid : Option Nat) (pay : PaymentDetails)
        (uid : Nat) (tid : Option String) (sid : Option Nat) (today : String),
      (SalesController.process_sale db cart cid pay uid tid sid today).1.success = false
      ∧ (SalesController.process_sale db cart cid pay uid tid sid today).2.stock_movements
          = db.stock_movements
      ∧ (SalesController.process_sale db cart cid pay uid tid sid today).2.product_variations
          = db.product_variations)
    ∧ (SalesController.process_sale dbC1 cartC3 none payC1 7 none none "20250101").1.err
        = some SaleError.ledgerFkViolation
    ∧ (SalesController.process_sale dbC1 cartC1 none payC1 7 none none "20250101").1.err
        = some (SaleError.noSuchColumn "allow_backorders") := by
  refine ⟨?_, by decide, by decide⟩
  intro db cart cid pay uid tid sid today
  obtain ⟨h1, h2⟩ := process_sale_no_commit db cart cid pay uid tid sid today
  exact ⟨h1, by rw [h2], by rw [h2]⟩

/-- C4: when any required account code is missing from settings, ledger
posting fails and the whole sale aborts with no committed rows - as the
claim states, although posting fails for every configuration: the account
code resolves to a hard-coded default, but the INSERT it is used in always
raises (empty `accounts` foreign-key target, duplicated entry number), so
`_process_accounting_entries` returns failure and `process_sale` rolls back,
returning the committed state unchanged. -/
theorem missing_account_config_sale_aborts (db : DB) (pend : Pending)
    (sale_id : Nat) (totals : Totals) (cart : List CartItem) (cid : Option Nat)
    (pay : PaymentDetails) (uid : Nat) (tid : Option String) (sid : Option Nat)
    (today : String)
    (h : db.settings.find? (fun s => s.setting_key == "account_cash_receivables") = none
         ∨ db.settings.find? (fun s => s.setting_key == "account_sales_revenue") = none
         ∨ db.settings.find? (fun s => s.setting_key == "account_cost_of_goods_sold") = none
         ∨ db.settings.find? (fun s => s.setting_key == "account_inventory_asset") = none) :
    (∃ e, (SalesController.process_accounting_entries db pend sale_id totals uid).1
          = .error e)
    ∧ (SalesController.process_sale db cart cid pay uid tid sid today).1.success = false
    ∧ (SalesController.process_sale db cart cid pay uid tid sid today).2 = db :=
  ⟨process_accounting_entries_always_fails db pend sale_id totals uid,
   (process_sale_no_commit db cart cid pay uid tid sid today).1,
   (process_sale_no_commit db cart cid pay uid tid sid today).2⟩

/-- Witness for C4: on the concrete store no account key is configured at
all (the settings table is empty); the accounting step fails and the sale
attempt returns failure with the store unchanged. -/
theorem missing_account_config_sale_aborts_witness :
    (dbC1.settings.find? (fun s => s.setting_key == "account_cash_receivables") = none
     ∨ dbC1.settings.find? (fun s => s.setting_key == "account_sales_revenue") = none
     ∨ dbC1.settings.find? (fun s => s.setting_key == "account_cost_of_goods_sold") = none
     ∨ dbC1.settings.find? (fun s => s.setting_key == "account_inventory_asset") = none)
    ∧ ((∃ e, (SalesController.process_accounting_entries dbC1 {} 1 totalsW 7).1 = .error e)
       ∧ (SalesController.process_sale dbC1 cartC3 none payC1 7 none none "20250101").1.success
           = false
       ∧ (SalesController.process_sale dbC1 cartC3 none payC1 7 none none "20250101").2
           = dbC1) :=
  ⟨Or.inl (by decide),
   missing_account_config_sale_aborts dbC1 {} 1 totalsW cartC3 none payC1 7 none none
     "20250101" (Or.inl (by decide))⟩

/-- C5: refuted as a description of the mutation path - `update_stock` can
never perform a mutation.  For every store, lock state and argument list the
call returns failure and leaves the stock-movement table, the variation
stocks and the product rows untouched: its first SELECT names
`p.allow_negative_stock`, a column the `products` table does not have
(`products_no_allow_negative_stock`), so the query raises before the balance
check, the movement INSERT or any UPDATE is reached.  The balance invariant
and the negative-stock rejection of the claim describe code that can never
execute. -/
theorem update_stock_always_fails_without_write :
    ∀ (db : DB) (locked : Bool) (vid : Nat) (qc : ℚ) (reason : String) (uid : Nat)
      (rt : Option String) (rid : Option Nat) (bn : Option String) (nt : Option String),
      (ProductController.update_stock db locked vid qc reason uid rt rid bn nt).1.success
          = false
      ∧ (ProductController.update_stock db locked vid qc reason uid rt rid bn nt).2.stock_movements
          = db.stock_movements
      ∧ (ProductController.update_stock db locked vid qc reason uid rt rid bn nt).2.product_variations
          = db.product_variations
      ∧ (ProductController.update_stock db locked vid qc reason uid rt rid bn nt).2.products
          = db.products := by
  intro db locked vid qc reason uid rt rid bn nt
  refine ⟨rfl, ?_, ?_, ?_⟩ <;> simp [ProductController.update_stock]

/-- C6: refuted as a description of the posting step - the sale's accounting
step can never post any GeneralLedgerEntry row, so there is no transaction
id with posted rows to balance.  `_create_ledger_entry` raises on every
invocation: its two INSERTs share one entry number against
`entry_number TEXT UNIQUE NOT NULL`, and `account_id` is a foreign key into
the never-populated `accounts` table.  Consequently
`_process_accounting_entries` fails always, and no `process_sale` run - the
only caller - changes the committed ledger. -/
theorem ledger_posting_always_fails :
    (∀ (db : DB) (pend : Pending) (en desc da : String) (d c : ℚ) (ca : String)
        (cd cc : ℚ) (tid : Nat) (tt : String) (uid : Nat),
      ∃ e, (SalesController.create_ledger_entry db pend en desc da d c ca cd cc tid tt uid).1
            = .error e)
    ∧ (∀ (db : DB) (pend : Pending) (sale_id : Nat) (totals : Totals) (uid : Nat),
      ∃ e, (SalesController.process_accounting_entries db pend sale_id totals uid).1
            = .error e)
    ∧ (∀ (db : DB) (cart : List CartItem) (cid : Option Nat) (pay : PaymentDetails)
        (uid : Nat) (tid : Option String) (sid : Option Nat) (today : String),
      (SalesController.process_sale db cart cid pay uid tid sid today).2.general_ledger
        = db.general_ledger) := by
  refine ⟨create_ledger_entry_always_fails, process_accounting_entries_always_fails, ?_⟩
  intro db cart cid pay uid tid sid today
  rw [(process_sale_no_commit db cart cid pay uid tid sid today).2]

/-- C8: refuted - two concurrent same-day `process_sale` calls never both
succeed, because no call ever succeeds: whatever committed state each of the
two racing invocations observes when it runs, it aborts at the accounting
step at the latest and commits no sale header, so no invoice number is ever
committed by either.  (The generator itself is an unserialized
count-then-format, but the race it invites is unreachable.) -/
theorem concurrent_sales_never_both_succeed :
    ∀ (db1 db2 : DB) (cart1 cart2 : List CartItem) (cid1 cid2 : Option Nat)
      (pay1 pay2 : PaymentDetails) (u1 u2 : Nat) (t1 t2 : Option String)
      (s1 s2 : Option Nat) (today : String),
      (SalesController.process_sale db1 cart1 cid1 pay1 u1 t1 s1 today).1.success = false
      ∧ (SalesController.process_sale db2 cart2 cid2 pay2 u2 t2 s2 today).1.success = false
      ∧ (SalesController.process_sale db1 cart1 cid1 pay1 u1 t1 s1 today).2.sales
          = db1.sales := by
  intro db1 db2 cart1 cart2 cid1 cid2 pay1 pay2 u1 u2 t1 t2 s1 s2 today
  refine ⟨(process_sale_no_commit db1 cart1 cid1 pay1 u1 t1 s1 today).1,
    (process_sale_no_commit db2 cart2 cid2 pay2 u2 t2 s2 today).1, ?_⟩
  rw [(process_sale_no_commit db1 cart1 cid1 pay1 u1 t1 s1 today).2]

/-- C10 counterexample: on the concrete aborted attempt (single-line cart,
validation passes, the sale dies at ledger posting) the audit log afterwards
is empty - no `process_sale_item` entry, no failure entry, nothing persists,
refuting the claim that audit records emitted during an aborted attempt
survive the rollback. -/
theorem no_audit_rows_survive_aborted_sale :
    (SalesController.process_sale dbC1 cartC3 none payC1 7 none none "20250101").1.success
        = false
    ∧ (SalesController.process_sale dbC1 cartC3 none payC1 7 none none "20250101").2.sale_items
        = []
    ∧ (SalesController.process_sale dbC1 cartC3 none payC1 7 none none "20250101").2.audit_logs
        = [] := by
  decide

/-- C10 (amended): the audit writes are indeed attempted through
`execute_update` on a separate, independently committing connection - but
none of them ever produces a row.  Every action string `SalesController`
logs with (`process_sale`, `process_sale_item`, `loyalty_update`,
`process_refund`) is outside the CHECK list of `audit_logs.action_type`, so
sqlite3 rejects the INSERT and the logger swallows the error; the in-
transaction attempts are additionally blocked by the sale connection's
write lock.  Hence the audit log is unchanged by every `process_sale` run:
nothing survives the rollback because nothing is ever written. -/
theorem sale_audit_inserts_never_recorded :
    (∀ (db : DB) (locked : Bool) (u : Option Nat) (m s : String),
      log_audit db locked u "process_sale" m s = db
      ∧ log_audit db locked u "process_sale_item" m s = db
      ∧ log_audit db locked u "loyalty_update" m s = db
      ∧ log_audit db locked u "process_refund" m s = db)
    ∧ (∀ (db : DB) (cart : List CartItem) (cid : Option Nat) (pay : PaymentDetails)
        (uid : Nat) (tid : Option String) (sid : Option Nat) (today : String),
      (SalesController.process_sale db cart cid pay uid tid sid today).2.audit_logs
        = db.audit_logs) := by
  constructor
  · intro db locked u m s
    exact ⟨log_audit_action_rejected db locked u "process_sale" m s (by decide),
      log_audit_action_rejected db locked u "process_sale_item" m s (by decide),
      log_audit_action_rejected db locked u "loyalty_update" m s (by decide),
      log_audit_action_rejected db locked u "process_refund" m s (by decide)⟩
  · intro db cart cid pay uid tid sid today
    rw [(process_sale_no_commit db cart cid pay uid tid sid today).2]

/-- Errors of the refund pipeline; each constructor corresponds to one
failure path of `process_refund` in sales_controller.py. -/
inductive RefundError where
  | saleNotFound
  | itemNotFound
  | exceedsRefundable
  | rowKeyError
  | attributeMissing
deriving Repr, DecidableEq

/-- One entry of the refund request list passed to `process_refund`:
`product_variation_id` is `none` when the key is absent from the Python
dictionary. -/
structure RefundItem where
  product_id : Nat
  product_variation_id : Option Nat := none
  quantity : ℚ
deriving Repr, DecidableEq

namespace SalesController

/-- Key under which `_validate_refund_items` stores an original sale line:
the Python f-string renders an SQL NULL variation id as the text None
(sales_controller.py line 1104). -/
def orig_item_key (pid : Nat) (vid : Option Nat) : String :=
  toString pid ++ "_" ++ (match vid with | none => "None" | some k => toString k)

/-- Key under which `_validate_refund_items` looks up a refund request line:
an absent variation key defaults to the number 0
(sales_controller.py line 1108). -/
def refund_item_key (pid : Nat) (vid : Option Nat) : String :=
  toString pid ++ "_" ++ toString (vid.getD 0)

/-- Dictionary built by the comprehension of `_validate_refund_items`: for
duplicate keys the later row wins, so lookup searches from the end. -/
def lookup_original (rows : List SaleItem) (key : String) : Option SaleItem :=
  rows.reverse.find? (fun si =>
    orig_item_key si.product_id si.product_variation_id == key)

/-- Embedding of `SalesController._validate_refund_items`
(sales_controller.py lines 1091-1128): each requested line must match an
original line of the sale and not exceed
`original_quantity - COALESCE(return_quantity, 0)`. -/
def validate_refund_items (db : DB) (sale_id : Nat) :
    List RefundItem → Except RefundError Unit
  | [] => .ok ()
  | refund_item :: rest =>
    let rows := db.sale_items.filter (fun si => si.sale_id == sale_id)
    let key := refund_item_key refund_item.product_id refund_item.product_variation_id
    match lookup_original rows key with
    | none => .error .itemNotFound
    | some original_item =>
      let max_refundable := original_item.quantity - (original_item.return_quantity.getD 0)
      if refund_item.quantity > max_refundable then .error .exceedsRefundable
      else validate_refund_items db sale_id rest

/-- Projection of a sale-item row to the four columns the SELECT of
`_calculate_refund_totals` names (sales_controller.py lines 1138-1143). -/
structure RefundPriceRow where
  unit_price : ℚ
  discount_amount : ℚ
  tax_amount : ℚ
  total : ℚ
deriving Repr, DecidableEq

/-- Column access on the projected row, as `sqlite3.Row` indexing: only the
four selected columns exist; any other key raises. -/
def refund_price_row_get (r : RefundPriceRow) (key : String) : Option ℚ :=
  if key == "unit_price" then some r.unit_price
  else if key == "discount_amount" then some r.discount_amount
  else if key == "tax_amount" then some r.tax_amount
  else if key == "total" then some r.total
  else none

/-- Loop of `_calculate_refund_totals` (sales_controller.py lines
1134-1161).  For each requested line the first matching original row is
fetched (NULL-aware variation match); the code then reads
`original_item['total']` (present) and `original_item['quantity']` - a
column the SELECT at lines 1138-1143 does not include, so the row access
raises and the whole calculation fails. -/
def calculate_refund_totals_loop (db : DB) (sale_id : Nat) :
    List RefundItem → Except RefundError ℚ
  | [] => .ok 0
  | refund_item :: rest =>
    let row := (db.sale_items.find? (fun si =>
      si.sale_id == sale_id && si.product_id == refund_item.product_id &&
      si.product_variation_id == refund_item.product_variation_id)).map
      (fun si => RefundPriceRow.mk si.unit_price si.discount_amount si.tax_amount si.total)
    match row with
    | none => calculate_refund_totals_loop db sale_id rest
    | some original_item =>
      match refund_price_row_get original_item "total",
            refund_price_row_get original_item "quantity" with
      | some original_total, some original_quantity =>
        let refund_proportion :=
          refund_item.quantity /
            (if original_quantity > 0 then original_quantity else 1)
        match calculate_refund_totals_loop db sale_id rest with
        | .ok acc => .ok (acc + original_total * refund_proportion)
        | .error e => .error e
      | _, _ => .error .rowKeyError

/-- Embedding of `SalesController._calculate_refund_totals`
(sales_controller.py lines 1130-1173): the summed proportional refund,
rounded to two decimals on success. -/
def calculate_refund_totals (db : DB) (sale_id : Nat)
    (refund_items : List RefundItem) : Except RefundError ℚ :=
  match calculate_refund_totals_loop db sale_id refund_items with
  | .ok amount => .ok (quantize2 amount)
  | .error e => .error e

/-- Result dictionary of `process_refund`. -/
structure RefundResult where
  success : Bool
  err : Option RefundError := none
deriving Repr, DecidableEq

/-- Embedding of `SalesController.process_refund`
(sales_controller.py lines 987-1089).  Steps 1-3 (original-sale fetch,
validation, refund-totals calculation) follow the source.  Steps 5-8 call
`_insert_refund_sale`, `_process_refund_items`,
`_update_original_sale_status` and `_process_refund_accounting`, none of
which is defined anywhere in the repository, so reaching step 5 raises
AttributeError in Python; the outer handler then attempts a failure audit
row (action `process_refund`, rejected by the CHECK constraint of
`audit_logs`) and returns a failure dictionary.  Early
validation/calculation failures return before any write. -/
def process_refund (db : DB) (sale_id : Nat) (refund_items : List RefundItem)
    (user_id : Nat) (reason : String) (time_suffix : String) : RefundResult × DB :=
  match db.sales.find? (fun s => s.id == sale_id) with
  | none => ({ success := false, err := some .saleNotFound }, db)
  | some original_sale =>
    match validate_refund_items db sale_id refund_items with
    | .error e => ({ success := false, err := some e }, db)
    | .ok _ =>
      match calculate_refund_totals db sale_id refund_items with
      | .error e => ({ success := false, err := some e }, db)
      | .ok _refund_amount =>
        let _refund_invoice :=
          "REF-" ++ original_sale.invoice_no ++ "-" ++ time_suffix
        let _unused_reason := reason
        ({ success := false, err := some .attributeMissing },
         log_audit db false (some user_id) "process_refund" "sales" "failure")

end SalesController

/-- Concrete original sale header for the refund scenario. -/
def saleC2 : Sale :=
  { id := 1, invoice_no := "20250101-0001", invoice_day := "20250101",
    invoice_status := "completed", customer_id := none,
    customer_name := "Walk-in Customer", customer_phone := none,
    customer_email := none, cashier_id := 7, cashier_name := "Cash Ier",
    subtotal := 20, discount_amount := 0, discount_percent := 0,
    tax_amount := 0, total := 20, amount_paid := 20, change_amount := 0,
    payment_method := "cash", payment_status := "paid", currency := "USD",
    terminal_id := none, shift_id := none }

/-- Concrete original sale line: 2 units of variation 1, nothing returned
yet. -/
def itemC2 : SaleItem :=
  { id := 1, sale_id := 1, product_id := 1, product_variation_id := some 1,
    product_name := "Widget", product_sku := some "W-1-R",
    product_barcode := none, variation_description := "Red", quantity := 2,
    unit_price := 10, subtotal := 20, discount_amount := 0,
    discount_percent := 0, tax_amount := 0, tax_percent := 0, total := 20,
    return_quantity := some 0 }

/-- Store holding the committed original sale of the refund scenario. -/
def dbC2 : DB :=
  { dbC1 with
    sales := [saleC2]
    sale_items := [itemC2]
    next_sale_id := 2
    next_sale_item_id := 2 }

/-- Valid refund request: 1 of the 2 sold units, nothing returned before. -/
def refundReqC2 : List RefundItem :=
  [{ product_id := 1, product_variation_id := some 1, quantity := 1 }]

/-- C2: `process_refund` never returns success, for any store and request.
Even a fully valid request (existing sale, quantity within the refundable
remainder, validation passes) fails: `_calculate_refund_totals` reads the
`quantity` column which its own SELECT does not include, so the proportional
refund calculation always raises for any matching line, and the methods
implementing steps 5-8 do not exist in the repository. -/
theorem process_refund_always_fails :
    (∀ (db : DB) (sale_id : Nat) (items : List RefundItem) (uid : Nat)
        (reason : String) (ts : String),
      (SalesController.process_refund db sale_id items uid reason ts).1.success = false)
    ∧ SalesController.validate_refund_items dbC2 1 refundReqC2 = .ok ()
    ∧ (SalesController.process_refund dbC2 1 refundReqC2 7 "customer_return" "101010").1.success
        = false
    ∧ (SalesController.process_refund dbC2 1 refundReqC2 7 "customer_return" "101010").1.err
        = some RefundError.rowKeyError := by
  refine ⟨?_, by decide, by decide, by decide⟩
  intro db sale_id items uid reason ts
  unfold SalesController.process_refund
  split
  · rfl
  · split
    · rfl
    · split
      · rfl
      · rfl

/-- Parameter names of `SalesController.__init__`
(sales_controller.py line 20). -/
def sales_controller_init_params : List String :=
  ["self", "db_manager", "product_controller"]

/-- Names bound at module top level when sales_controller.py is imported:
the imports of lines 9-14 and the class of line 17.  The `__main__` guard at
line 1202 does not execute on import, so none of its bindings exist. -/
def sales_controller_module_globals : List String :=
  ["json", "datetime", "date", "timedelta", "Decimal", "Dict", "List",
   "Optional", "Any", "Tuple", "DatabaseManager", "ProductController",
   "SalesController"]

/-- Names additionally bound when the file runs as a script: the module
globals plus the assignments of the `__main__` block (sales_controller.py
lines 1204-1265), among them `product_ctrl` at line 1207. -/
def sales_controller_main_globals : List String :=
  sales_controller_module_globals ++
    ["db", "product_ctrl", "sales_controller", "cart_items",
     "payment_details", "sale_result", "daily_report", "sale_details",
     "summary"]

/-- Python name resolution for a loaded name: local scope, then module
globals, else a NameError. -/
inductive PyNameLookup where
  | localName
  | globalName
  | nameError
deriving Repr, DecidableEq

/-- Resolve a name against the local names and the module globals. -/
def py_lookup (locals globals : List String) (n : String) : PyNameLookup :=
  if locals.contains n then .localName
  else if globals.contains n then .globalName
  else .nameError

/-- Embedding of `SalesController.__init__`
(sales_controller.py lines 20-29).  The body executes
`self.product_ctrl = product_ctrl`: the name `product_ctrl` is not among
the parameters (`db_manager`, `product_controller`), so it resolves through
the module globals; `.error` models the NameError raised when it is bound
nowhere.  The argument values are irrelevant to the outcome - that is the
bug: the `product_controller` parameter is never read. -/
def sales_controller_init (db_manager product_controller : Nat)
    (module_globals : List String) : Except String Nat :=
  match py_lookup sales_controller_init_params module_globals "product_ctrl" with
  | .localName => .ok product_controller
  | .globalName => .ok 0
  | .nameError => .error "NameError"

/-- C9: for every pair of constructor arguments, `SalesController.__init__`
raises a NameError when the module has been imported (the `__main__` block
not executed), because `product_ctrl` is neither a parameter nor a module
global; only when the file runs as a script does the global `product_ctrl`
of the test block make the assignment succeed. -/
theorem sales_controller_init_name_error :
    (∀ (db_manager product_controller : Nat),
      sales_controller_init db_manager product_controller
        sales_controller_module_globals = .error "NameError")
    ∧ (∀ (db_manager product_controller : Nat),
      sales_controller_init db_manager product_controller
        sales_controller_main_globals = .ok 0) :=
  ⟨fun _ _ => rfl, fun _ _ => rfl⟩
